import Mathlib

/-!
Verification of the meme-scanner signal engine (indicators, reproducibility
backtester, composite scorer, outcome tracker) against its specification.

Shallow embedding conventions:
* Python floats are modelled by `ℚ` wherever the computations stay finite;
  the possibility of a float `NaN` result (pandas `min_periods` masking)
  is modelled by the `PyFloat` type below, whose `nan` constructor is an
  ordinary *value* of the return type, exactly as `float("nan")` is in
  Python.  Comparisons against `nan` are `false`, as in IEEE semantics.
* `config.py` is not part of the sources; the market-cap band parameters it
  supplies (`config.get_mc_params`) are passed as an explicit function
  argument, and `RSI_PERIOD` / `ATR_PERIOD` are modelled from the spec
  (RSI(9), ATR(14), warm-up 23 = 9 + 14).
* The CSV ledger of `tracker.py` is modelled as a list of rows; the pure
  read-modify-write core of each tracker operation is embedded, with the
  HTTP fetch abstracted into an oracle argument.
-/

namespace MemeScanner

/-- A Python float result: either a real (finite) value or the `NaN` value
produced by pandas when a window has fewer than `min_periods` observations.
`nan` is a value of the type, not an error. -/
inductive PyFloat
  | nan : PyFloat
  | val : ℚ → PyFloat
  deriving DecidableEq, Repr

/-- One OHLCV candle (row of the DataFrame).  `ts` is the Unix timestamp in
seconds.  The `open` column is never read by the embedded computations but is
kept for fidelity (named `opn`, since `open` is a Lean keyword). -/
structure Candle where
  ts : ℕ
  opn : ℚ
  high : ℚ
  low : ℚ
  close : ℚ
  volume : ℚ
  deriving DecidableEq, Repr

/-- Modelled from the spec: `config.RSI_PERIOD` (config.py is not among the
sources; the spec and the code's docstrings fix RSI(9)). -/
def RSI_PERIOD : ℕ := 9

/-- Modelled from the spec: `config.ATR_PERIOD` (config.py is not among the
sources; the spec and the code's docstrings fix ATR(14); warm-up 9+14=23). -/
def ATR_PERIOD : ℕ := 14

/-- Modelled from the spec: the parameter tuple of one market-cap band as
returned by `config.get_mc_params` (config.py is not among the sources). -/
structure McParams where
  volume_surge_min : ℚ
  ohlcv_aggregate : ℕ
  rsi_overbought : ℚ
  atr_sl_mult : ℚ
  atr_tp_mult : ℚ
  deriving DecidableEq, Repr

/-- Kernel-reducible maximum on `ℚ` (definitionally `max`). -/
def qmax (a b : ℚ) : ℚ := if a ≤ b then b else a

/-- Kernel-reducible minimum on `ℚ` (definitionally `min`). -/
def qmin (a b : ℚ) : ℚ := if a ≤ b then a else b

/-- Kernel-reducible maximum on `ℤ` (definitionally `max`). -/
def zmax (a b : ℤ) : ℤ := if a ≤ b then b else a

/-- Kernel-reducible minimum on `ℤ` (definitionally `min`). -/
def zmin (a b : ℤ) : ℤ := if a ≤ b then a else b

/-- Successive differences, `closes.diff()` dropping the leading `NaN`:
element `i` is `closes[i+1] - closes[i]`. -/
def diffs (xs : List ℚ) : List ℚ :=
  List.zipWith (fun a b => b - a) xs (xs.drop 1)

/-- `series.ewm(alpha := α, adjust := False).mean()` evaluated at the last
index: seeded with the first observation, then `y ← (1-α)*y + α*x`.
Returns `none` on an empty series. -/
def ewmLast (a : ℚ) : List ℚ → Option ℚ
  | [] => none
  | x :: rest => some (rest.foldl (fun y v => (1 - a) * y + a * v) x)

/-- `indicators.calc_rsi`.  The deltas have `closes.length - 1` entries; with
`min_periods = period` the last EWM value is `NaN` (here: the guard) unless
at least `period` deltas exist.  `avg_loss.replace(0, float("inf"))` turns a
zero smoothed loss into an infinite denominator, so `rs = avg_gain / inf = 0`
in that case.  On an *empty* closes list the Python code raises `IndexError`
at `rsi.iloc[-1]` instead of returning; the `nan` this total embedding yields
there is a junk value outside the function's domain, and theorems about the
NaN return behaviour are stated for nonempty input only. -/
def calc_rsi (closes : List ℚ) (period : ℕ) : PyFloat :=
  let delta := diffs closes
  let gains := delta.map (fun d => qmax d 0)
  let losses := delta.map (fun d => qmax (-d) 0)
  if delta.length < period then PyFloat.nan
  else
    match ewmLast (1 / (period : ℚ)) gains, ewmLast (1 / (period : ℚ)) losses with
    | some ag, some al =>
        let rs : ℚ := if al = 0 then 0 else ag / al
        PyFloat.val (100 - 100 / (1 + rs))
    | _, _ => PyFloat.nan

/-- The true-range series of `indicators.calc_atr`: `high - low` for the first
candle (the `prev_close` terms are `NaN` there and `max(axis=1)` skips them),
then `max(high-low, |high-prev_close|, |low-prev_close|)`. -/
def trueRangesFrom (prev : Candle) : List Candle → List ℚ
  | [] => []
  | c :: rest =>
      qmax (c.high - c.low) (qmax |c.high - prev.close| |c.low - prev.close|) ::
        trueRangesFrom c rest

/-- True ranges of a whole candle list. -/
def trueRanges : List Candle → List ℚ
  | [] => []
  | c :: rest => (c.high - c.low) :: trueRangesFrom c rest

/-- `indicators.calc_atr`: EWM (α = 1/period, `min_periods = period`) of the
true-range series, evaluated at the last index; `NaN` when fewer than
`period` candles exist.  As with `calc_rsi`, an *empty* DataFrame makes the
Python code raise `IndexError` at `atr.iloc[-1]`; the embedding's `nan`
there is junk outside the domain, and theorems about the NaN return
behaviour assume nonempty input. -/
def calc_atr (df : List Candle) (period : ℕ) : PyFloat :=
  let trs := trueRanges df
  if trs.length < period then PyFloat.nan
  else
    match ewmLast (1 / (period : ℚ)) trs with
    | some a => PyFloat.val a
    | none => PyFloat.nan

/-- Calendar day of a Unix timestamp (UTC), modelling `timestamp.dt.date`. -/
def dayOf (ts : ℕ) : ℕ := ts / 86400

/-- `indicators.calc_vwap`: volume-weighted average of `(high+low+close)/3`
over the candles sharing the last candle's calendar day; falls back to the
last close when that day's total volume is zero.  (Total function; the
`0` result for an empty list is outside the callers' domain.) -/
def calc_vwap (df : List Candle) : ℚ :=
  match df.getLast? with
  | none => 0
  | some lastC =>
      let today := df.filter (fun c => decide (dayOf c.ts = dayOf lastC.ts))
      let totalVol := (today.map (fun c => c.volume)).sum
      if totalVol = 0 then lastC.close
      else
        (today.map (fun c => (c.high + c.low + c.close) / 3 * c.volume)).sum / totalVol

/-- `indicators.calc_volume_surge`: last volume over the mean of the (up to)
20 preceding volumes, i.e. `df["volume"].iloc[-21:-1].mean()`; `0.0` whenever
that mean is not `> 0` (an empty slice gives a `NaN` mean, and `NaN > 0` is
false). -/
def calc_volume_surge (df : List Candle) : ℚ :=
  match df.getLast? with
  | none => 0
  | some lastC =>
      let pre := df.dropLast.drop (df.dropLast.length - 20)
      if pre = [] then 0
      else
        let avg := (pre.map (fun c => c.volume)).sum / (pre.length : ℚ)
        if 0 < avg then lastC.volume / avg else 0

/-- The names bound at module level by `indicators.py` (from the source). -/
def indicatorsExports : List String :=
  ["calc_rsi", "calc_atr", "calc_vwap", "calc_volume_surge"]

/-- The names `reproducibility.calc_reproducibility` imports from the
indicator module at every call (`from indicators import ...`, a statement
inside the function body, from the source, line 32). -/
def reproducibilityImports : List String :=
  ["calc_rsi_series", "calc_atr_series"]

/-- Python `from`-import semantics: the import statement succeeds iff every
requested name is bound in the target module; otherwise it raises
`ImportError`. -/
def importResolves : Bool :=
  reproducibilityImports.all (fun n => indicatorsExports.contains n)

/-- The error value modelling the `ImportError` raised when a requested name
is missing. -/
def importErrorMsg : String := "ImportError"

/-- Close price at index `i` (`df["close"].iloc[i]`; total, default 0). -/
def closeAt (df : List Candle) (i : ℕ) : ℚ := ((df.get? i).map (fun c => c.close)).getD 0

/-- Modelled from the spec: `indicators.calc_rsi_series`, imported by
`reproducibility.py` but absent from the sources' `indicators.py`.  Per spec
§4.3/§4.1 it precomputes, for each index, the Wilder-smoothed RSI of the
closes up to and including that index (α = 1/period, value undefined —
here 0 — before the warm-up), with a zero smoothed loss forcing RS → ∞ and
hence RSI = 100. -/
def calc_rsi_series (closes : List ℚ) (period : ℕ) (i : ℕ) : ℚ :=
  let delta := diffs (closes.take (i + 1))
  let gains := delta.map (fun d => qmax d 0)
  let losses := delta.map (fun d => qmax (-d) 0)
  match ewmLast (1 / (period : ℚ)) gains, ewmLast (1 / (period : ℚ)) losses with
  | some ag, some al =>
      if al = 0 then 100 else 100 - 100 / (1 + ag / al)
  | _, _ => 0

/-- Modelled from the spec: `indicators.calc_atr_series`, imported by
`reproducibility.py` but absent from the sources' `indicators.py`.  Per spec
§4.3/§4.1: the Wilder-smoothed (α = 1/period) true range of the candles up
to and including each index (0 before the warm-up). -/
def calc_atr_series (df : List Candle) (period : ℕ) (i : ℕ) : ℚ :=
  (ewmLast (1 / (period : ℚ)) (trueRanges (df.take (i + 1)))).getD 0

/-- The rolling volume-surge value read by the backtest loop:
`df["volume"] / df["volume"].shift(1).rolling(20).mean().replace(0, NaN)`
at index `i`, with the loop's `0.0 if isna` guard folded in (the value is
`NaN` before 20 prior candles exist or when the window mean is zero). -/
def volSurgeAt (df : List Candle) (i : ℕ) : ℚ :=
  if i < 20 then 0
  else
    let w := ((df.map (fun c => c.volume)).drop (i - 20)).take 20
    let avg := w.sum / 20
    if avg = 0 then 0 else ((df.map (fun c => c.volume)).get? i).getD 0 / avg

/-- The cumulative VWAP read by the backtest loop:
`cumsum(typical*volume) / cumsum(volume).replace(0, NaN)` at index `i`, with
the loop's `close_i if isna` fallback folded in. -/
def vwapAt (df : List Candle) (i : ℕ) : ℚ :=
  let pre := df.take (i + 1)
  let cumVol := (pre.map (fun c => c.volume)).sum
  if cumVol = 0 then closeAt df i
  else (pre.map (fun c => (c.high + c.low + c.close) / 3 * c.volume)).sum / cumVol

/-- The backtest loop's signal condition at index `i` (from the source):
`(sig_volume and sig_vwap) or (sig_rsi and not (sig_volume or sig_vwap))`
with `sig_volume = vol_surge >= surge_min`, `sig_vwap = close_i > vwap`,
`sig_rsi = 50 < rsi <= rsi_overbought`. -/
def signalFires (df : List Candle) (ps : McParams) (i : ℕ) : Bool :=
  let rsi := calc_rsi_series (df.map (fun c => c.close)) RSI_PERIOD i
  let ci := closeAt df i
  let sigVolume := decide (ps.volume_surge_min ≤ volSurgeAt df i)
  let sigVwap := decide (vwapAt df i < ci)
  let sigRsi := decide (50 < rsi ∧ rsi ≤ ps.rsi_overbought)
  (sigVolume && sigVwap) || (sigRsi && !(sigVolume || sigVwap))

/-- Transcribed from the claim (C2): "a signal fires exactly when
(volume_surge[i] ≥ surge_min AND close[i] > vwap[i]) OR
(50 < rsi[i] ≤ rsi_overbought AND NOT the volume/vwap condition)", reading
"NOT the volume/vwap condition" as "neither sub-condition holds", per the
spec's gloss "an RSI-only signal when the primary confirmation is absent". -/
def claimSignalFires (df : List Candle) (ps : McParams) (i : ℕ) : Bool :=
  decide ((ps.volume_surge_min ≤ volSurgeAt df i ∧ vwapAt df i < closeAt df i) ∨
    (50 < calc_rsi_series (df.map (fun c => c.close)) RSI_PERIOD i ∧
      calc_rsi_series (df.map (fun c => c.close)) RSI_PERIOD i ≤ ps.rsi_overbought ∧
      ¬(ps.volume_surge_min ≤ volSurgeAt df i ∨ vwapAt df i < closeAt df i)))

/-- Outcome strings of the backtest forward scan. -/
def sOpen : String := "open"
def sBoth : String := "both"
def sWin : String := "win"
def sLoss : String := "loss"

/-- The backtest forward scan over the next `lookforward` candles (the inner
`for _, row in future_df.iterrows()` loop of `calc_reproducibility`): first
candle touching stop or target decides; both in one candle → `"both"`. -/
def scanOutcome (future : List Candle) (sl tp : ℚ) : String :=
  match future with
  | [] => sOpen
  | c :: rest =>
      if c.low ≤ sl ∧ tp ≤ c.high then sBoth
      else if tp ≤ c.high then sWin
      else if c.low ≤ sl then sLoss
      else scanOutcome rest sl tp

/-- One iteration of the backtest loop, updating
`(signal_count, success_count)`. -/
def reproStep (df : List Candle) (ps : McParams) (lf : ℕ) (st : ℕ × ℕ) (i : ℕ) : ℕ × ℕ :=
  if signalFires df ps i then
    let atr := calc_atr_series df ATR_PERIOD i
    let ci := closeAt df i
    let sl := ci - atr * ps.atr_sl_mult
    let tp := ci + atr * ps.atr_tp_mult
    let future := (df.drop (i + 1)).take lf
    (st.1 + 1, if scanOutcome future sl tp = sWin then st.2 + 1 else st.2)
  else st

/-- Whether index `i` both fires a signal and wins its forward scan (the
event counted by `success_count`). -/
def winAt (df : List Candle) (ps : McParams) (lf : ℕ) (i : ℕ) : Bool :=
  signalFires df ps i &&
    decide (scanOutcome ((df.drop (i + 1)).take lf)
      (closeAt df i - calc_atr_series df ATR_PERIOD i * ps.atr_sl_mult)
      (closeAt df i + calc_atr_series df ATR_PERIOD i * ps.atr_tp_mult) = sWin)

/-- Result record of `calc_reproducibility`. -/
structure ReproResult where
  reproducibility_score : ℚ
  signal_count : ℕ
  success_count : ℕ
  success_rate : ℚ
  adjusted_rate : ℚ
  deriving DecidableEq, Repr

/-- The post-loop part of `calc_reproducibility`: raw/adjusted success rate,
piecewise-linear raw score and confidence discount, as functions of the loop's
`(signal_count, success_count)`. -/
def reproPost (sc ss : ℕ) : ReproResult :=
  let successRate : ℚ := if sc = 0 then 0 else (ss : ℚ) / (sc : ℚ)
  let adjustedRate : ℚ := if sc = 0 then 0 else ((ss : ℚ) + 5 * (1 / 2)) / ((sc : ℚ) + 5)
  let confidence : ℚ := qmin ((sc : ℚ) / 10) 1
  let rawScore : ℚ :=
    if 3 / 4 ≤ adjustedRate then 20
    else if 1 / 2 ≤ adjustedRate then 10 + 10 * (adjustedRate - 1 / 2) / (1 / 4)
    else if 1 / 4 ≤ adjustedRate then 10 * (adjustedRate - 1 / 4) / (1 / 4)
    else 0
  { reproducibility_score := rawScore * confidence
    signal_count := sc
    success_count := ss
    success_rate := successRate
    adjusted_rate := adjustedRate }

/-- `reproducibility.calc_reproducibility`, body after the (failing) import
statement, with the missing indicator-series helpers modelled from the spec
and `config.get_mc_params` passed as `gmp`.  The index loop is
`range(min_idx, len(df) - lookforward - 1)` with
`min_idx = RSI_PERIOD + ATR_PERIOD` and `lookforward = int(60 / aggregate)`. -/
def calc_reproducibility (df : List Candle) (mc : ℚ) (gmp : ℚ → McParams) : ReproResult :=
  let ps := gmp mc
  let lf := 60 / ps.ohlcv_aggregate
  let minIdx := RSI_PERIOD + ATR_PERIOD
  let idxs := List.range' minIdx (df.length - lf - 1 - minIdx)
  let counts := idxs.foldl (reproStep df ps lf) (0, 0)
  reproPost counts.1 counts.2

/-- `calc_reproducibility` as actually callable: the function body begins
with `from indicators import calc_rsi_series, calc_atr_series`, which raises
`ImportError` whenever a requested name is missing from the module. -/
def calc_reproducibility_call (df : List Candle) (mc : ℚ) (gmp : ℚ → McParams) :
    Except String ReproResult :=
  if importResolves then Except.ok (calc_reproducibility df mc gmp)
  else Except.error importErrorMsg

/-- Transcribed from the claim (C3): Bayesian-smoothed adjusted rate, the
piecewise-linear 0–20 raw score, and the `min(signal_count/10, 1)`
confidence discount. -/
def claimReproScore (sc ss : ℕ) : ℚ :=
  let adj : ℚ := ((ss : ℚ) + 5 * (1 / 2)) / ((sc : ℚ) + 5)
  let raw : ℚ :=
    if 3 / 4 ≤ adj then 20
    else if 1 / 2 ≤ adj then 10 + 10 * (adj - 1 / 2) / (1 / 4)
    else if 1 / 4 ≤ adj then 10 * (adj - 1 / 4) / (1 / 4)
    else 0
  raw * qmin ((sc : ℚ) / 10) 1

/-- Python `round` on a (here: rational-valued) float: round half to even. -/
def pyRound (q : ℚ) : ℤ :=
  let f := ⌊q⌋
  let r := q - (f : ℚ)
  if r < 1 / 2 then f
  else if 1 / 2 < r then f + 1
  else if f % 2 = 0 then f else f + 1

/-- Python `round(x, 2)`: round half to even at two decimal places. -/
def pyRound2 (q : ℚ) : ℚ := (pyRound (q * 100) : ℚ) / 100

/-- Maximum of a list of rationals (`series.max()` on a nonempty series;
junk 0 on empty). -/
def listMax (l : List ℚ) : ℚ := l.foldl qmax (l.headD 0)

/-- Minimum of a list of rationals. -/
def listMin (l : List ℚ) : ℚ := l.foldl qmin (l.headD 0)

/-- Result of `price_position.calc_price_position` (display strings
omitted). -/
structure PpsResult where
  pps : ℤ
  pps_bonus : ℚ
  range_pct : ℚ
  vwap_dev : ℚ
  deriving DecidableEq, Repr

/-- `price_position.calc_price_position`.  `rsi` is a Python float and may be
`NaN`, in which case every axis-3 comparison is false and the final `else`
branch (`axis3 = 1`) is taken. -/
def calc_price_position (df : List Candle) (vwap : ℚ) (rsi : PyFloat) : PpsResult :=
  let close := ((df.getLast?).map (fun c => c.close)).getD 0
  let highest := listMax (df.map (fun c => c.high))
  let lowest := listMin (df.map (fun c => c.low))
  let rang := highest - lowest
  let rangePct : ℚ := if 0 < rang then (close - lowest) / rang else 1 / 2
  let axis1 : ℚ :=
    if rangePct ≤ 1 / 5 then 5
    else if rangePct ≤ 2 / 5 then 4
    else if rangePct ≤ 3 / 5 then 3
    else if rangePct ≤ 4 / 5 then 2
    else 1
  let vwapDev : ℚ := if 0 < vwap then (close - vwap) / vwap * 100 else 0
  let axis2 : ℚ :=
    if vwapDev ≤ -5 then 5
    else if vwapDev ≤ -1 then 4
    else if vwapDev ≤ 1 then 3
    else if vwapDev ≤ 5 then 2
    else 1
  let axis3 : ℚ :=
    match rsi with
    | PyFloat.nan => 1
    | PyFloat.val r =>
        if r ≤ 30 then 5
        else if r ≤ 45 then 4
        else if r ≤ 55 then 3
        else if r ≤ 70 then 2
        else 1
  let raw := (axis1 + axis2 + axis3) / 3
  let pps := zmax 1 (zmin 5 (pyRound raw))
  let bonus : ℚ :=
    if pps = 5 then 10 else if pps = 4 then 5 else if pps = 3 then 0
    else if pps = 2 then -5 else -10
  { pps := pps
    pps_bonus := bonus
    range_pct := rangePct
    vwap_dev := vwapDev }

/-- Result of `scorer.calculate_score` (score, breakdown, indicator snapshot
and reproducibility detail; the derived entry/stop/target prices and display
fields are omitted as no claim concerns them). -/
structure ScoreResult where
  score : ℤ
  vol_score : ℚ
  vwap_score : ℚ
  rsi_score : ℚ
  liq_score : ℚ
  repro_score : ℚ
  penalty : ℚ
  pps_bonus : ℚ
  rsi : PyFloat
  atr : PyFloat
  vwap : ℚ
  vol_surge : ℚ
  signal_count : ℕ
  success_count : ℕ
  low_sample : Bool
  deriving DecidableEq, Repr

/-- `scorer.calculate_score`, body semantics (the `calc_reproducibility` call
inside it is the modelled body; reaching it at all requires the import to
resolve — see `calculate_score_call`).  The chained float comparisons on a
`NaN` RSI are all false, selecting the final `else` branch. -/
def calculate_score (df : List Candle) (mc liquidity : ℚ) (gmp : ℚ → McParams) : ScoreResult :=
  let ps := gmp mc
  let rsi := calc_rsi (df.map (fun c => c.close)) RSI_PERIOD
  let atr := calc_atr df ATR_PERIOD
  let vwap := calc_vwap df
  let volSurge := calc_volume_surge df
  let close := ((df.getLast?).map (fun c => c.close)).getD 0
  let surgeMin := ps.volume_surge_min
  let surgeHalf := surgeMin * (7 / 10)
  let volScore : ℚ :=
    if surgeMin ≤ volSurge then 25
    else if surgeHalf ≤ volSurge then 25 * (volSurge - surgeHalf) / (surgeMin - surgeHalf)
    else 0
  let vwapScore : ℚ := if vwap < close then 20 else 0
  let ob := ps.rsi_overbought
  let rsiPair : ℚ × ℚ :=
    match rsi with
    | PyFloat.nan => (0, 0)
    | PyFloat.val r =>
        if 50 < r ∧ r ≤ ob then (20, 0)
        else if ob < r ∧ r ≤ ob + 5 then (20, -15 * (r - ob) / 5)
        else if ob + 5 < r then (20, -15)
        else (0, 0)
  let liqScore : ℚ :=
    if 50000 ≤ liquidity then 15
    else if 10000 ≤ liquidity then 15 * (liquidity - 10000) / (50000 - 10000)
    else 0
  let repro := calc_reproducibility df mc gmp
  let pps := calc_price_position df vwap rsi
  let total := volScore + vwapScore + rsiPair.1 + liqScore + repro.reproducibility_score +
    rsiPair.2 + pps.pps_bonus
  { score := zmax 0 (zmin 100 (pyRound total))
    vol_score := volScore
    vwap_score := vwapScore
    rsi_score := rsiPair.1
    liq_score := liqScore
    repro_score := repro.reproducibility_score
    penalty := rsiPair.2
    pps_bonus := pps.pps_bonus
    rsi := rsi
    atr := atr
    vwap := vwap
    vol_surge := volSurge
    signal_count := repro.signal_count
    success_count := repro.success_count
    low_sample := decide (repro.signal_count < 5) }

/-- `calculate_score` as actually callable: it invokes
`calc_reproducibility`, whose first statement is the failing `from
indicators import ...`, so the `ImportError` propagates out of every call. -/
def calculate_score_call (df : List Candle) (mc liquidity : ℚ) (gmp : ℚ → McParams) :
    Except String ScoreResult :=
  if importResolves then Except.ok (calculate_score df mc liquidity gmp)
  else Except.error importErrorMsg

/-- Tracker outcome strings (`tracker.py` column values). -/
def sOPEN : String := "OPEN"
def sWIN : String := "WIN"
def sLOSS : String := "LOSS"
def sWINplus : String := "WIN+"
def sLOSSminus : String := "LOSS-"
def sBOTH : String := "BOTH"
def sUNKNOWN : String := "UNKNOWN"
def sEXPIRED : String := "EXPIRED"

/-- The empty string returned by `record_signal` on a dedup skip. -/
def emptyStr : String := ""

/-- `tracker.OUTCOME_CHECK_DELAY` (60 minutes, seconds). -/
def OUTCOME_CHECK_DELAY : ℤ := 3600

/-- `tracker.OUTCOME_UNKNOWN_AFTER` (2 hours, seconds). -/
def OUTCOME_UNKNOWN_AFTER : ℤ := 2 * 3600

/-- `tracker.OUTCOME_MAX_AGE` (10 hours, seconds). -/
def OUTCOME_MAX_AGE : ℤ := 10 * 3600

/-- One ledger row (`signal_log.csv`).  Pre-outcome columns not read by any
tracker operation are reduced to the ones the claims concern; the
post-resolution columns are `none`/blank until filled in. -/
structure TrackRow where
  signal_id : String
  token_address : String
  signal_time_unix : ℤ
  outcome : String
  outcome_checked_at : String
  price_15m : Option ℚ
  price_30m : Option ℚ
  price_60m : Option ℚ
  high_60m : Option ℚ
  low_60m : Option ℚ
  sl_hit : Option Bool
  tp_hit : Option Bool
  pnl_pct : Option ℚ
  deriving DecidableEq, Repr

/-- `tracker.is_token_open`: whether some row of the ledger has this token
address with outcome `OPEN` (false on an empty ledger). -/
def is_token_open (ledger : List TrackRow) (token : String) : Bool :=
  ledger.any (fun r => r.token_address = token && r.outcome = sOPEN)

/-- The fresh row appended by `record_signal`: state `OPEN`, all
post-resolution columns blank. -/
def mkSignalRow (token sid : String) (t : ℤ) : TrackRow :=
  { signal_id := sid
    token_address := token
    signal_time_unix := t
    outcome := sOPEN
    outcome_checked_at := emptyStr
    price_15m := none
    price_30m := none
    price_60m := none
    high_60m := none
    low_60m := none
    sl_hit := none
    tp_hit := none
    pnl_pct := none }

/-- `tracker.record_signal`, read-modify-write core: if a row for the same
token is still `OPEN`, return the empty id and leave the ledger alone;
otherwise append one fresh `OPEN` row and return its id (`sid` stands for
the generated `uuid4` prefix, `t` for the current Unix time). -/
def record_signal (ledger : List TrackRow) (token sid : String) (t : ℤ) :
    String × List TrackRow :=
  if is_token_open ledger token then (emptyStr, ledger)
  else (sid, ledger ++ [mkSignalRow token sid t])

/-- The dict returned by `tracker._fetch_outcome` on success. -/
structure OutcomeData where
  outcome_checked_at : String
  price_15m : Option ℚ
  price_30m : Option ℚ
  price_60m : Option ℚ
  high_60m : ℚ
  low_60m : ℚ
  sl_hit : Bool
  tp_hit : Bool
  outcome : String
  pnl_pct : Option ℚ
  deriving DecidableEq, Repr

/-- `for col, val in outcome_data.items(): df.at[idx, col] = val` — write the
fetched outcome columns into the row. -/
def applyOutcome (r : TrackRow) (d : OutcomeData) : TrackRow :=
  { r with
    outcome_checked_at := d.outcome_checked_at
    price_15m := d.price_15m
    price_30m := d.price_30m
    price_60m := d.price_60m
    high_60m := some d.high_60m
    low_60m := some d.low_60m
    sl_hit := some d.sl_hit
    tp_hit := some d.tp_hit
    outcome := d.outcome
    pnl_pct := d.pnl_pct }

/-- How one `check_outcomes` sweep treats one row.  `fetch` abstracts the
whole `_fetch_outcome` call: `Except.error ()` models an uncaught exception
inside it (swallowed by the sweep's `try/except`), `Except.ok none` its
`return None` (no usable candles), `Except.ok (some d)` a successful
analysis. -/
def outcomeStep (now : ℤ) (nowStr : String)
    (fetch : TrackRow → Except Unit (Option OutcomeData)) (r : TrackRow) : TrackRow :=
  if r.outcome = sOPEN ∧ OUTCOME_CHECK_DELAY ≤ now - r.signal_time_unix then
    let age := now - r.signal_time_unix
    if OUTCOME_MAX_AGE < age then
      { r with outcome := sEXPIRED, outcome_checked_at := nowStr }
    else
      match fetch r with
      | Except.error _ => r
      | Except.ok (some d) => applyOutcome r d
      | Except.ok none =>
          if OUTCOME_UNKNOWN_AFTER ≤ age then
            { r with outcome := sUNKNOWN, outcome_checked_at := nowStr }
          else r
  else r

/-- `tracker.check_outcomes`, read-modify-write core: the mask selects the
`OPEN` rows at least 60 minutes old and every selected row is resolved
independently with the same `now`, so the sweep is a row-wise map. -/
def check_outcomes (now : ℤ) (nowStr : String)
    (fetch : TrackRow → Except Unit (Option OutcomeData)) (ledger : List TrackRow) :
    List TrackRow :=
  ledger.map (outcomeStep now nowStr fetch)

/-- The 5-minute candle window `_fetch_outcome` analyses: candles from the
start of the candle containing the signal through signal + 60 minutes. -/
def windowOf (df : List Candle) (signalUnix : ℕ) : List Candle :=
  let signalCandle := signalUnix / 300 * 300
  df.filter (fun c => decide (signalCandle ≤ c.ts ∧ c.ts ≤ signalUnix + 3600))

/-- `price_at` inside `_fetch_outcome`: the latest close at or before the
target time, over the whole fetched series. -/
def priceAt (df : List Candle) (target : ℕ) : Option ℚ :=
  ((df.filter (fun c => decide (c.ts ≤ target))).getLast?).map (fun c => c.close)

/-- One iteration of the SL/TP first-touch loop of `_fetch_outcome` over the
state `(first_hit, sl_hit, tp_hit)`. -/
def hitStep (sl tp : ℚ) (st : Option String × Bool × Bool) (c : Candle) :
    Option String × Bool × Bool :=
  match st.1 with
  | none =>
      if c.low ≤ sl ∧ tp ≤ c.high then (some sBOTH, true, true)
      else if c.low ≤ sl then (some sLOSS, true, st.2.2)
      else if tp ≤ c.high then (some sWIN, st.2.1, true)
      else (none, st.2.1, st.2.2)
  | some x => (some x, st.2.1 || decide (c.low ≤ sl), st.2.2 || decide (tp ≤ c.high))

/-- The SL/TP first-touch loop of `_fetch_outcome`, folding
`(first_hit, sl_hit, tp_hit)` over the window in timestamp order. -/
def hitScan (w : List Candle) (sl tp : ℚ) : Option String × Bool × Bool :=
  w.foldl (hitStep sl tp) (none, false, false)

/-- `tracker._fetch_outcome`, pure core after the HTTP fetch: given the
fetched 5-minute candles — ascending, since the source reverses the API's
descending list, making the loop's `sort_values("timestamp")` a stable
no-op — classify the 60-minute post-signal window.  Returns `none` when the
window is empty. -/
def fetchOutcomeCore (df : List Candle) (signalUnix : ℕ) (entry sl tp : ℚ)
    (nowStr : String) : Option OutcomeData :=
  let w := windowOf df signalUnix
  if w = [] then none
  else
    let p15 := priceAt df (signalUnix + 900)
    let p30 := priceAt df (signalUnix + 1800)
    let p60 := priceAt df (signalUnix + 3600)
    let high60 := listMax (w.map (fun c => c.high))
    let low60 := listMin (w.map (fun c => c.low))
    let scan := hitScan w sl tp
    let outcome : String :=
      match scan.1 with
      | some x => x
      | none =>
          match p60 with
          | some p => if entry < p then sWINplus else sLOSSminus
          | none => sUNKNOWN
    some
      { outcome_checked_at := nowStr
        price_15m := p15
        price_30m := p30
        price_60m := p60
        high_60m := high60
        low_60m := low60
        sl_hit := scan.2.1
        tp_hit := scan.2.2
        outcome := outcome
        pnl_pct := p60.map (fun p => pyRound2 ((p - entry) / entry * 100)) }

/-- The volume window `df["volume"].iloc[-21:-1]` of `calc_volume_surge`
(the at-most-20 candles preceding the most recent one). -/
def surgeWindow (df : List Candle) : List Candle :=
  df.dropLast.drop (df.dropLast.length - 20)

/-- The mean volume of `surgeWindow` (the denominator of the surge ratio). -/
def surgeAvg (df : List Candle) : ℚ :=
  ((surgeWindow df).map (fun c => c.volume)).sum / ((surgeWindow df).length : ℚ)

/-! ### Concrete inputs used by counterexamples and witnesses -/

/-- A flat candle at minute `j`: high = low = close = 100, unit volume.  On a
flat series every difference is zero, so the modelled RSI series is 100
(zero smoothed loss) and the ATR series is 0. -/
def flatCandle (j : ℕ) : Candle :=
  { ts := j, opn := 100, high := 100, low := 100, close := 100, volume := 1 }

/-- A candle at minute `j` closing at 100 with a wick to 101: every true
range is exactly 1, so the modelled ATR series is constantly 1, and the
cumulative VWAP (typical price 100 + 1/3) stays above the close. -/
def wickCandle (j : ℕ) : Candle :=
  { ts := j, opn := 100, high := 101, low := 100, close := 100, volume := 1 }

/-- A band-parameter tuple for the C2 counterexample: 30-minute candles
(`lookforward = 2`), an unreachable surge threshold and
`rsi_overbought = 100`, so on a flat series every index fires an RSI-only
signal. -/
def psC2 : McParams :=
  { volume_surge_min := 1000, ohlcv_aggregate := 30, rsi_overbought := 100
    atr_sl_mult := 1, atr_tp_mult := 1 }

/-- `get_mc_params` stub returning `psC2` for every market cap. -/
def gmpC2 : ℚ → McParams := fun _ => psC2

/-- 27 flat candles (the backtester reads no timestamps, so a constant list
is a valid input): under `psC2` every index satisfies the (RSI-only) signal
condition, but the loop's `range(23, 27-2-1)` visits only index 23, while
the claim's inclusive range [23, 24] contains two firing indices. -/
def exDf2 : List Candle := List.replicate 27 (flatCandle 0)

/-- A band-parameter tuple for the C3 witness: 60-minute candles
(`lookforward = 1`), an unreachable surge threshold and
`rsi_overbought = 100`, so on a wick series every index fires an RSI-only
signal with stop 99 and target 101. -/
def psC3 : McParams :=
  { volume_surge_min := 1000, ohlcv_aggregate := 60, rsi_overbought := 100
    atr_sl_mult := 1, atr_tp_mult := 1 }

/-- `get_mc_params` stub returning `psC3` for every market cap. -/
def gmpC3 : ℚ → McParams := fun _ => psC3

/-- 36 wick candles: under `psC3` all 11 loop indices fire an RSI-only
signal and every signal hits its target (101) on the next candle's wick
without touching the stop (99). -/
def exDf3 : List Candle := List.replicate 36 (wickCandle 0)

/-- Strictly increasing closes, 11 samples: every difference is a gain, so
the Wilder-smoothed loss is exactly zero. -/
def c4Closes : List ℚ := [1, 2, 3, 4, 5, 6, 7, 8, 9, 10, 11]

/-- A 3-sample close series (shorter than the RSI warm-up). -/
def c5ShortCloses : List ℚ := [1, 2, 3]

/-- A 3-candle series (shorter than both warm-ups). -/
def c5ShortDf : List Candle := [flatCandle 0, flatCandle 1, flatCandle 2]

/-- A flat candle with zero volume. -/
def zeroVolCandle (j : ℕ) : Candle :=
  { ts := j, opn := 100, high := 100, low := 100, close := 100, volume := 0 }

/-- 21 unit-volume candles (trailing mean volume 1). -/
def df9unit : List Candle := (List.range 21).map flatCandle

/-- 21 zero-volume candles (trailing mean volume 0). -/
def df9zero : List Candle := (List.range 21).map zeroVolCandle

/-- The name of the scoring-specific error the spec postulates; no such
exception class exists anywhere in the sources. -/
def scoringErrorName : String := "ScoringError"

/-- A single benign candle (nonempty DataFrame for scorer witnesses). -/
def exDf6 : List Candle := [flatCandle 0]

/-- Concrete token address / signal ids / timestamps for tracker witnesses. -/
def tokA : String := "tokenA"
def sidA : String := "sid00001"
def sidB : String := "sid00002"
def nowStr0 : String := "2026-10-12 00:00:00"

/-- A terminal (already resolved) ledger row. -/
def rowTerminal : TrackRow := { mkSignalRow tokA sidA 0 with outcome := sWIN }

/-- A fetch oracle that always reports "no usable candles". -/
def fetchNone : TrackRow → Except Unit (Option OutcomeData) := fun _ => Except.ok none

/-- A candle whose range touches both stop 1 and target 3. -/
def candleBoth : Candle :=
  { ts := 10, opn := 2, high := 3, low := 1, close := 5 / 2, volume := 1 }

/-- A candle touching neither stop 1 nor target 3, closing at 2.1 > entry 2. -/
def candleQuiet : Candle :=
  { ts := 10, opn := 2, high := 11 / 5, low := 19 / 10, close := 21 / 10, volume := 1 }

/-- A one-candle window for the pnl rounding counterexample: entry 3, minute-60
price 4, exact pnl 100/3 %. -/
def exDf8 : List Candle :=
  [{ ts := 0, opn := 3, high := 4, low := 2, close := 4, volume := 1 }]

/-! ### Theorems -/

/-- C10: every call to `calc_reproducibility` — and therefore every call to
`calculate_score`, which invokes it — fails with an import error for all
inputs: `reproducibility.py` imports `calc_rsi_series` and `calc_atr_series`
from the indicator library, and `indicators.py` binds neither name. -/
theorem c10_import_always_fails :
    importResolves = false ∧
    reproducibilityImports.all (fun n => !(indicatorsExports.contains n)) = true ∧
    (∀ (df : List Candle) (mc : ℚ) (gmp : ℚ → McParams),
      calc_reproducibility_call df mc gmp = Except.error importErrorMsg) ∧
    (∀ (df : List Candle) (mc liquidity : ℚ) (gmp : ℚ → McParams),
      calculate_score_call df mc liquidity gmp = Except.error importErrorMsg) := by
  have h : importResolves = false := by decide
  refine ⟨h, by decide, ?_, ?_⟩
  · intro df mc gmp
    simp [calc_reproducibility_call, h]
  · intro df mc liquidity gmp
    simp [calculate_score_call, h]

/-- C4 (code bug): on a strictly increasing close series the Wilder-smoothed
loss is exactly zero, and `calc_rsi` then returns RSI = 0, not 100: the code
substitutes +∞ for the zero *denominator*, so `rs = avg_gain / inf = 0.0` and
`rsi = 100 - 100/(1+0) = 0`.  The spec (and the standard RSI the docstring
names) requires RS → ∞, RSI = 100 in this case. -/
theorem c4_rsi_zero_loss_yields_zero :
    calc_rsi c4Closes RSI_PERIOD = PyFloat.val 0 ∧
    PyFloat.val (0 : ℚ) ≠ PyFloat.val 100 := by
  constructor
  · norm_num [calc_rsi, c4Closes, RSI_PERIOD, diffs, ewmLast, qmax]
  · intro h
    rw [PyFloat.val.injEq] at h
    norm_num at h

/-- C1: `record_signal` suppresses a new row whenever some row for the same
token address is still `OPEN` (returning the empty signal id and leaving the
ledger untouched), and otherwise appends exactly one fresh `OPEN` row. -/
theorem c1_record_signal_dedup (ledger : List TrackRow) (token sid : String) (t : ℤ) :
    (is_token_open ledger token = true →
      record_signal ledger token sid t = (emptyStr, ledger)) ∧
    (is_token_open ledger token = false →
      record_signal ledger token sid t = (sid, ledger ++ [mkSignalRow token sid t]) ∧
      (mkSignalRow token sid t).outcome = sOPEN ∧
      (ledger ++ [mkSignalRow token sid t]).length = ledger.length + 1) := by
  constructor
  · intro h
    simp [record_signal, h]
  · intro h
    exact ⟨by simp [record_signal, h], rfl, by simp⟩

/-- Witness for C1 at concrete inputs: a ledger with an `OPEN` row for the
token skips, the empty ledger appends. -/
theorem c1_record_signal_dedup_witness :
    record_signal [mkSignalRow tokA sidA 0] tokA sidB 5 = (emptyStr, [mkSignalRow tokA sidA 0]) ∧
    record_signal [] tokA sidB 5 = (sidB, [mkSignalRow tokA sidB 5]) :=
  ⟨(c1_record_signal_dedup [mkSignalRow tokA sidA 0] tokA sidB 5).1 (by decide),
   ((c1_record_signal_dedup [] tokA sidB 5).2 (by decide)).1⟩

/-- C9: `calc_volume_surge` is 0 when the mean volume of the 20 candles
preceding the most recent one is 0, regardless of the latest candle's
volume; otherwise (volumes being nonnegative, as they are for market data)
it is the ratio of the most recent volume to that mean. -/
theorem c9_volume_surge_spec (df : List Candle) (l : Candle)
    (hl : df.getLast? = some l) (h21 : 21 ≤ df.length)
    (hv : ∀ c ∈ df, 0 ≤ c.volume) :
    (surgeAvg df = 0 → calc_volume_surge df = 0) ∧
    (surgeAvg df ≠ 0 → calc_volume_surge df = l.volume / surgeAvg df) := by
  have hlen : (surgeWindow df).length = 20 := by
    have h1 : df.dropLast.length = df.length - 1 := List.length_dropLast df
    simp only [surgeWindow, List.length_drop, h1]
    omega
  have hpre : surgeWindow df ≠ [] := by
    intro h
    rw [h] at hlen
    simp at hlen
  have hsum : 0 ≤ ((surgeWindow df).map (fun c => c.volume)).sum := by
    apply List.sum_nonneg
    intro x hx
    simp only [List.mem_map] at hx
    obtain ⟨c, hc, rfl⟩ := hx
    exact hv c (List.dropLast_subset df (List.drop_subset _ _ hc))
  have havg : 0 ≤ surgeAvg df := by
    apply div_nonneg hsum
    exact_mod_cast Nat.zero_le _
  have hbody : calc_volume_surge df =
      if 0 < surgeAvg df then l.volume / surgeAvg df else 0 := by
    simp only [calc_volume_surge, hl, surgeAvg, surgeWindow]
    rw [if_neg]
    exact hpre
  constructor
  · intro h0
    rw [hbody, h0]
    simp
  · intro hne
    have hpos : 0 < surgeAvg df := lt_of_le_of_ne havg (Ne.symm hne)
    rw [hbody, if_pos hpos]

/-- Witness for C9 at concrete inputs: 21 zero-volume candles give surge 0;
21 unit-volume candles give surge 1/1. -/
theorem c9_volume_surge_spec_witness :
    calc_volume_surge df9zero = 0 ∧
    calc_volume_surge df9unit = (flatCandle 20).volume / surgeAvg df9unit := by
  constructor
  · exact (c9_volume_surge_spec df9zero (zeroVolCandle 20) (by decide) (by decide)
      (by decide)).1 (by norm_num [surgeAvg, surgeWindow, df9zero, zeroVolCandle, List.range_succ])
  · exact (c9_volume_surge_spec df9unit (flatCandle 20) (by decide) (by decide)
      (by decide)).2 (by norm_num [surgeAvg, surgeWindow, df9unit, flatCandle, List.range_succ])

/-- C7: a `check_outcomes` sweep treats each row independently; a row that is
not `OPEN`, or is younger than 60 minutes, is never touched; an eligible row
older than 10 hours becomes `EXPIRED` without consulting the fetch oracle;
an eligible row whose fetch yields no usable candles stays `OPEN` below two
hours of age and becomes `UNKNOWN` at or above it. -/
theorem c7_check_outcomes_protocol (now : ℤ) (nowStr : String)
    (fetch : TrackRow → Except Unit (Option OutcomeData)) (ledger : List TrackRow)
    (r : TrackRow) :
    check_outcomes now nowStr fetch ledger = ledger.map (outcomeStep now nowStr fetch) ∧
    (r.outcome ≠ sOPEN → outcomeStep now nowStr fetch r = r) ∧
    (now - r.signal_time_unix < OUTCOME_CHECK_DELAY → outcomeStep now nowStr fetch r = r) ∧
    (r.outcome = sOPEN → OUTCOME_CHECK_DELAY ≤ now - r.signal_time_unix →
      OUTCOME_MAX_AGE < now - r.signal_time_unix →
      (outcomeStep now nowStr fetch r).outcome = sEXPIRED ∧
      (∀ fetch₂, outcomeStep now nowStr fetch₂ r = outcomeStep now nowStr fetch r)) ∧
    (r.outcome = sOPEN → OUTCOME_CHECK_DELAY ≤ now - r.signal_time_unix →
      now - r.signal_time_unix ≤ OUTCOME_MAX_AGE → fetch r = Except.ok none →
      (OUTCOME_UNKNOWN_AFTER ≤ now - r.signal_time_unix →
        (outcomeStep now nowStr fetch r).outcome = sUNKNOWN) ∧
      (now - r.signal_time_unix < OUTCOME_UNKNOWN_AFTER →
        outcomeStep now nowStr fetch r = r)) := by
  refine ⟨rfl, ?_, ?_, ?_, ?_⟩
  · intro h
    simp [outcomeStep, h]
  · intro h
    simp [outcomeStep, not_le.mpr h]
  · intro h1 h2 h3
    constructor
    · simp [outcomeStep, h1, h2, h3]
    · intro fetch₂
      simp [outcomeStep, h1, h2, h3]
  · intro h1 h2 h3 h4
    constructor
    · intro h5
      simp [outcomeStep, h1, h2, not_lt.mpr h3, h4, h5]
    · intro h5
      simp [outcomeStep, h1, h2, not_lt.mpr h3, h4, not_le.mpr h5]

/-- Witness for C7 at concrete inputs: ages 1000 s (untouched), 40000 s
(expired), 10000 s with no data (unknown), 5000 s with no data (still open),
and a terminal row at any age (untouched). -/
theorem c7_check_outcomes_protocol_witness :
    outcomeStep 1000 nowStr0 fetchNone (mkSignalRow tokA sidA 0) = mkSignalRow tokA sidA 0 ∧
    (outcomeStep 40000 nowStr0 fetchNone (mkSignalRow tokA sidA 0)).outcome = sEXPIRED ∧
    (outcomeStep 10000 nowStr0 fetchNone (mkSignalRow tokA sidA 0)).outcome = sUNKNOWN ∧
    outcomeStep 5000 nowStr0 fetchNone (mkSignalRow tokA sidA 0) = mkSignalRow tokA sidA 0 ∧
    outcomeStep 40000 nowStr0 fetchNone rowTerminal = rowTerminal :=
  ⟨(c7_check_outcomes_protocol 1000 nowStr0 fetchNone [] (mkSignalRow tokA sidA 0)).2.2.1
      (by decide),
   ((c7_check_outcomes_protocol 40000 nowStr0 fetchNone [] (mkSignalRow tokA sidA 0)).2.2.2.1
      (by decide) (by decide) (by decide)).1,
   ((c7_check_outcomes_protocol 10000 nowStr0 fetchNone [] (mkSignalRow tokA sidA 0)).2.2.2.2
      (by decide) (by decide) (by decide) rfl).1 (by decide),
   ((c7_check_outcomes_protocol 5000 nowStr0 fetchNone [] (mkSignalRow tokA sidA 0)).2.2.2.2
      (by decide) (by decide) (by decide) rfl).2 (by decide),
   (c7_check_outcomes_protocol 40000 nowStr0 fetchNone [] rowTerminal).2.1 (by decide)⟩

theorem trueRangesFrom_length (prev : Candle) (l : List Candle) :
    (trueRangesFrom prev l).length = l.length := by
  induction l generalizing prev with
  | nil => rfl
  | cons c rest ih => simp [trueRangesFrom, ih]

theorem trueRanges_length (l : List Candle) : (trueRanges l).length = l.length := by
  cases l with
  | nil => rfl
  | cons c rest => simp [trueRanges, trueRangesFrom_length]

theorem diffs_length (xs : List ℚ) : (diffs xs).length = xs.length - 1 := by
  simp only [diffs, List.length_zipWith, List.length_drop]
  omega

/-- Counterexample to C5 as stated: on a series shorter than the warm-up the
indicator functions *return* the float value `NaN` — they are total and raise
nothing (no `InsufficientData` class exists in the sources) — and the
composite scorer fails with the reproducibility helper's `ImportError` on
every input, not with a `ScoringError` (which also does not exist). -/
theorem c5_counterexample :
    calc_rsi c5ShortCloses RSI_PERIOD = PyFloat.nan ∧
    calc_atr c5ShortDf ATR_PERIOD = PyFloat.nan ∧
    calculate_score_call c5ShortDf 0 0 gmpC3 = Except.error importErrorMsg ∧
    importErrorMsg ≠ scoringErrorName := by
  refine ⟨by decide, by decide, ?_, by decide⟩
  have h : importResolves = false := by decide
  simp [calculate_score_call, h]

/-- C5 amended: on a *nonempty* series shorter than the warm-up, `calc_rsi`
(fewer than `period + 1` closes) and `calc_atr` (fewer than `period`
candles) return the `NaN` float value instead of raising (the empty series
is excluded: there the Python code raises `IndexError` at `iloc[-1]`, not
`InsufficientData`); and composite scoring fails on *every* input with the
`ImportError` from `calc_reproducibility`'s absent indicator helpers, never
with a scoring-specific error. -/
theorem c5_short_series_amended :
    (∀ (closes : List ℚ) (period : ℕ), closes ≠ [] → closes.length ≤ period →
      calc_rsi closes period = PyFloat.nan) ∧
    (∀ (df : List Candle) (period : ℕ), df ≠ [] → df.length < period →
      calc_atr df period = PyFloat.nan) ∧
    (∀ (df : List Candle) (mc liquidity : ℚ) (gmp : ℚ → McParams),
      calculate_score_call df mc liquidity gmp = Except.error importErrorMsg) := by
  have himp : importResolves = false := by decide
  refine ⟨?_, ?_, ?_⟩
  · intro closes period hne h
    have hd : (diffs closes).length = closes.length - 1 := diffs_length closes
    have hlen : 1 ≤ closes.length := List.length_pos.mpr hne
    have hp : (diffs closes).length < period := by omega
    simp [calc_rsi, hp]
  · intro df period hne h
    simp only [calc_atr]
    rw [if_pos]
    rw [trueRanges_length]
    exact h
  · intro df mc liquidity gmp
    simp [calculate_score_call, himp]

/-- Witness for the amended C5 at concrete nonempty short inputs. -/
theorem c5_short_series_amended_witness :
    calc_rsi c5ShortCloses RSI_PERIOD = PyFloat.nan ∧
    calc_atr c5ShortDf ATR_PERIOD = PyFloat.nan ∧
    calculate_score_call c5ShortDf 0 0 gmpC2 = Except.error importErrorMsg :=
  ⟨c5_short_series_amended.1 c5ShortCloses RSI_PERIOD (by decide) (by decide),
   c5_short_series_amended.2.1 c5ShortDf ATR_PERIOD (by decide) (by decide),
   c5_short_series_amended.2.2 c5ShortDf 0 0 gmpC2⟩

theorem zmax_eq_max (a b : ℤ) : zmax a b = max a b := by
  unfold zmax
  split
  · exact (max_eq_right (by assumption)).symm
  · exact (max_eq_left (le_of_not_le (by assumption))).symm

theorem zmin_eq_min (a b : ℤ) : zmin a b = min a b := by
  unfold zmin
  split
  · exact (min_eq_left (by assumption)).symm
  · exact (min_eq_right (le_of_not_le (by assumption))).symm

theorem qmin_eq_min (a b : ℚ) : qmin a b = min a b := by
  unfold qmin
  split
  · exact (min_eq_left (by assumption)).symm
  · exact (min_eq_right (le_of_not_le (by assumption))).symm

/-- C6: the composite score equals
`clamp(round(vol + vwap + rsi + liq + repro + penalty + position_bonus), 0, 100)`
(`round` being Python's half-to-even rounding to an integer), hence it is an
integer (the embedding's `ℤ`, as Python's `int`) in [0, 100] for every input
combination. -/
theorem c6_total_score_clamped (df : List Candle) (mc liquidity : ℚ)
    (gmp : ℚ → McParams) (hdf : df ≠ []) :
    (calculate_score df mc liquidity gmp).score =
      max 0 (min 100 (pyRound
        ((calculate_score df mc liquidity gmp).vol_score +
         (calculate_score df mc liquidity gmp).vwap_score +
         (calculate_score df mc liquidity gmp).rsi_score +
         (calculate_score df mc liquidity gmp).liq_score +
         (calculate_score df mc liquidity gmp).repro_score +
         (calculate_score df mc liquidity gmp).penalty +
         (calculate_score df mc liquidity gmp).pps_bonus))) ∧
    0 ≤ (calculate_score df mc liquidity gmp).score ∧
    (calculate_score df mc liquidity gmp).score ≤ 100 := by
  have h1 : (calculate_score df mc liquidity gmp).score =
      max 0 (min 100 (pyRound
        ((calculate_score df mc liquidity gmp).vol_score +
         (calculate_score df mc liquidity gmp).vwap_score +
         (calculate_score df mc liquidity gmp).rsi_score +
         (calculate_score df mc liquidity gmp).liq_score +
         (calculate_score df mc liquidity gmp).repro_score +
         (calculate_score df mc liquidity gmp).penalty +
         (calculate_score df mc liquidity gmp).pps_bonus))) := by
    rw [← zmax_eq_max, ← zmin_eq_min]
    rfl
  refine ⟨h1, ?_, ?_⟩
  · rw [h1]
    exact le_max_left 0 _
  · rw [h1]
    exact max_le (by norm_num) (min_le_left _ _)

/-- Witness for C6 at a concrete one-candle input. -/
theorem c6_total_score_clamped_witness :
    0 ≤ (calculate_score exDf6 0 0 gmpC2).score ∧
    (calculate_score exDf6 0 0 gmpC2).score ≤ 100 :=
  ⟨(c6_total_score_clamped exDf6 0 0 gmpC2 (by decide)).2.1,
   (c6_total_score_clamped exDf6 0 0 gmpC2 (by decide)).2.2⟩

theorem reproStep_fires (df : List Candle) (ps : McParams) (lf : ℕ) (st : ℕ × ℕ)
    (i : ℕ) (h : signalFires df ps i = true) :
    reproStep df ps lf st i =
      (st.1 + 1, if winAt df ps lf i then st.2 + 1 else st.2) := by
  simp only [reproStep, h, if_true, winAt, Bool.true_and, decide_eq_true_eq]

theorem reproStep_no_fire (df : List Candle) (ps : McParams) (lf : ℕ) (st : ℕ × ℕ)
    (i : ℕ) (h : signalFires df ps i = false) :
    reproStep df ps lf st i = st := by
  simp [reproStep, h]

/-- The loop's `signal_count` counts exactly the firing indices, and its
`success_count` the firing indices whose forward scan ends in a win. -/
theorem reproFold_counts (df : List Candle) (ps : McParams) (lf : ℕ) (l : List ℕ) :
    ∀ a b : ℕ,
      (l.foldl (reproStep df ps lf) (a, b)).1 = a + l.countP (signalFires df ps) ∧
      (l.foldl (reproStep df ps lf) (a, b)).2 = b + l.countP (winAt df ps lf) := by
  induction l with
  | nil =>
      intro a b
      simp
  | cons i t ih =>
      intro a b
      rw [List.foldl_cons, List.countP_cons, List.countP_cons]
      by_cases h : signalFires df ps i = true
      · rw [reproStep_fires df ps lf (a, b) i h]
        simp only [if_pos h]
        by_cases hw : winAt df ps lf i = true
        · simp only [if_pos hw]
          constructor
          · rw [(ih (a + 1) (b + 1)).1]
            omega
          · rw [(ih (a + 1) (b + 1)).2]
            omega
        · simp only [if_neg hw]
          constructor
          · rw [(ih (a + 1) b).1]
            omega
          · rw [(ih (a + 1) b).2]
            omega
      · have hff : signalFires df ps i = false := by
          simpa using h
        have hwf : winAt df ps lf i = false := by
          simp [winAt, hff]
        rw [reproStep_no_fire df ps lf (a, b) i hff]
        constructor
        · rw [(ih a b).1]
          simp [hff]
        · rw [(ih a b).2]
          simp [hwf]

/-- The loop's boolean signal condition coincides pointwise with the claim's
condition. -/
theorem signalFires_eq_claim (df : List Candle) (ps : McParams) :
    signalFires df ps = claimSignalFires df ps := by
  funext i
  by_cases hV : ps.volume_surge_min ≤ volSurgeAt df i <;>
    by_cases hW : vwapAt df i < closeAt df i <;>
      by_cases hR1 : 50 < calc_rsi_series (df.map (fun c => c.close)) RSI_PERIOD i <;>
        by_cases hR2 :
            calc_rsi_series (df.map (fun c => c.close)) RSI_PERIOD i ≤ ps.rsi_overbought <;>
          simp [signalFires, claimSignalFires, hV, hW, hR1, hR2]

/-- C2 amended: the backtest evaluates exactly the indices of
`range(warmup, len − lookforward − 1)`, i.e. warmup through
`len − lookforward − 2` inclusive (the claim's `len − lookforward − 1` is the
loop's exclusive bound, not its last index); on that range a signal fires
exactly under the claimed condition, and `signal_count` is the number of
firing indices. -/
theorem c2_signal_count_amended (df : List Candle) (mc : ℚ) (gmp : ℚ → McParams)
    (hagg : 0 < (gmp mc).ohlcv_aggregate) :
    (calc_reproducibility df mc gmp).signal_count =
      (List.range' (RSI_PERIOD + ATR_PERIOD)
        (df.length - 60 / (gmp mc).ohlcv_aggregate - 1 - (RSI_PERIOD + ATR_PERIOD))).countP
        (claimSignalFires df (gmp mc)) := by
  have h := (reproFold_counts df (gmp mc) (60 / (gmp mc).ohlcv_aggregate)
    (List.range' (RSI_PERIOD + ATR_PERIOD)
      (df.length - 60 / (gmp mc).ohlcv_aggregate - 1 - (RSI_PERIOD + ATR_PERIOD))) 0 0).1
  rw [signalFires_eq_claim] at h
  simpa [calc_reproducibility, reproPost] using h

theorem ewm_foldl_const (a q : ℚ) (n : ℕ) :
    (List.replicate n q).foldl (fun y v => (1 - a) * y + a * v) q = q := by
  induction n with
  | zero => rfl
  | succ m ih =>
      rw [List.replicate_succ, List.foldl_cons]
      have hstep : (1 - a) * q + a * q = q := by ring
      rw [hstep, ih]

theorem ewmLast_replicate (a q : ℚ) (n : ℕ) (h : 1 ≤ n) :
    ewmLast a (List.replicate n q) = some q := by
  obtain ⟨m, rfl⟩ : ∃ m, n = m + 1 := ⟨n - 1, by omega⟩
  rw [List.replicate_succ, ewmLast, ewm_foldl_const]

theorem diffs_replicate (n : ℕ) (q : ℚ) :
    diffs (List.replicate n q) = List.replicate (n - 1) 0 := by
  have h1 : min n (n - 1) = n - 1 := by omega
  simp [diffs, List.drop_replicate, List.zipWith_replicate, h1]

theorem rsi_series_replicate (c : Candle) (N i : ℕ) (h1 : 1 ≤ i) (h2 : i + 1 ≤ N) :
    calc_rsi_series ((List.replicate N c).map (fun x => x.close)) RSI_PERIOD i = 100 := by
  have hmin : min (i + 1) N = i + 1 := by omega
  have hq : qmax (0 : ℚ) 0 = 0 := by simp [qmax]
  simp only [calc_rsi_series, List.map_replicate, List.take_replicate, hmin,
    diffs_replicate, Nat.add_sub_cancel, neg_zero, hq,
    ewmLast_replicate _ _ _ h1]
  simp

theorem volSurgeAt_replicate (c : Candle) (N i : ℕ) (h20 : 20 ≤ i) (hiN : i < N)
    (hv : c.volume ≠ 0) : volSurgeAt (List.replicate N c) i = 1 := by
  have hmin : min 20 (N - (i - 20)) = 20 := by omega
  simp only [volSurgeAt, List.map_replicate, List.drop_replicate, List.take_replicate, hmin]
  rw [if_neg (by omega)]
  rw [List.sum_replicate, nsmul_eq_mul]
  have havg : (20 : ℕ) * c.volume / 20 = c.volume := by
    push_cast
    field_simp
  rw [havg, if_neg hv]
  have hget : (List.replicate N c.volume).get? i = some c.volume := by
    simp [List.get?_eq_getElem?, List.getElem?_replicate, hiN]
  rw [hget]
  simp [div_self hv]

theorem vwapAt_replicate (c : Candle) (N i : ℕ) (h2 : i + 1 ≤ N) (hv : c.volume ≠ 0) :
    vwapAt (List.replicate N c) i = (c.high + c.low + c.close) / 3 := by
  have hmin : min (i + 1) N = i + 1 := by omega
  have hcast : ((i : ℚ) + 1) ≠ 0 := by positivity
  simp only [vwapAt, List.take_replicate, hmin, List.map_replicate, List.sum_replicate,
    nsmul_eq_mul]
  rw [if_neg (by push_cast; exact mul_ne_zero hcast hv)]
  push_cast
  field_simp
  ring

theorem trueRangesFrom_replicate (c : Candle) (n : ℕ) :
    trueRangesFrom c (List.replicate n c) =
      List.replicate n (qmax (c.high - c.low) (qmax |c.high - c.close| |c.low - c.close|)) := by
  induction n with
  | zero => rfl
  | succ m ih =>
      rw [List.replicate_succ, List.replicate_succ]
      simp only [trueRangesFrom]
      rw [ih]

theorem atr_series_replicate (c : Candle) (N i : ℕ) (h2 : i + 1 ≤ N)
    (hK : qmax (c.high - c.low) (qmax |c.high - c.close| |c.low - c.close|) = c.high - c.low) :
    calc_atr_series (List.replicate N c) ATR_PERIOD i = c.high - c.low := by
  have hmin : min (i + 1) N = i + 1 := by omega
  simp only [calc_atr_series, List.take_replicate, hmin, List.replicate_succ, trueRanges,
    trueRangesFrom_replicate, hK]
  rw [show (c.high - c.low) :: List.replicate i (c.high - c.low) =
    List.replicate (i + 1) (c.high - c.low) from (List.replicate_succ _ _).symm]
  rw [ewmLast_replicate _ _ _ (by omega)]
  rfl

theorem closeAt_replicate (c : Candle) (N i : ℕ) (h : i < N) :
    closeAt (List.replicate N c) i = c.close := by
  simp [closeAt, List.get?_eq_getElem?, List.getElem?_replicate, h]

/-- On a constant candle list whose typical price is at or above the close,
with an out-of-reach surge threshold and `rsi_overbought ≥ 100`, every index
past the rolling warm-up fires an RSI-only signal. -/
theorem signalFires_replicate (c : Candle) (ps : McParams) (N i : ℕ)
    (h20 : 20 ≤ i) (h2 : i + 1 ≤ N)
    (hsm : ¬(ps.volume_surge_min ≤ 1))
    (htyp : ¬((c.high + c.low + c.close) / 3 < c.close))
    (hob : (100 : ℚ) ≤ ps.rsi_overbought)
    (hv : c.volume ≠ 0) :
    signalFires (List.replicate N c) ps i = true := by
  have hrsi := rsi_series_replicate c N i (by omega) h2
  have hvs := volSurgeAt_replicate c N i h20 (by omega) hv
  have hvw := vwapAt_replicate c N i h2 hv
  have hcl := closeAt_replicate c N i (by omega)
  simp only [signalFires, hrsi, hvs, hvw, hcl, Bool.or_eq_true, Bool.and_eq_true,
    Bool.not_eq_true', Bool.or_eq_false_iff, decide_eq_true_eq, decide_eq_false_iff_not]
  exact Or.inr ⟨⟨by norm_num, hob⟩, hsm, htyp⟩

theorem exDf2_fires (i : ℕ) (h1 : 20 ≤ i) (h2 : i + 1 ≤ 27) :
    signalFires exDf2 psC2 i = true :=
  signalFires_replicate (flatCandle 0) psC2 27 i h1 h2
    (by norm_num [psC2]) (by norm_num [flatCandle]) (by norm_num [psC2])
    (by norm_num [flatCandle])

/-- Counterexample to C2 as stated: on 27 flat candles where *every* index
satisfies the claimed signal condition, the loop counts only index 23 —
`range(23, 27−2−1)` excludes the claim's inclusive upper end 24 — so
`signal_count = 1` while the claim's inclusive index range [23, 24] holds two
firing indices. -/
theorem c2_counterexample :
    (calc_reproducibility exDf2 0 gmpC2).signal_count = 1 ∧
    (List.range' (RSI_PERIOD + ATR_PERIOD)
      (exDf2.length - 60 / psC2.ohlcv_aggregate - 1 - (RSI_PERIOD + ATR_PERIOD) + 1)).countP
      (claimSignalFires exDf2 psC2) = 2 := by
  constructor
  · have h1 := (reproFold_counts exDf2 psC2 2 (List.range' 23 1) 0 0).1
    have hc : (List.range' 23 1).countP (signalFires exDf2 psC2) = 1 := by
      have hr : List.range' 23 1 = [23] := rfl
      rw [hr, List.countP_cons, List.countP_nil, if_pos (exDf2_fires 23 (by omega) (by omega))]
    rw [hc] at h1
    simpa [calc_reproducibility, reproPost, gmpC2, psC2, exDf2,
      RSI_PERIOD, ATR_PERIOD] using h1
  · have hr : List.range' (RSI_PERIOD + ATR_PERIOD)
        (exDf2.length - 60 / psC2.ohlcv_aggregate - 1 - (RSI_PERIOD + ATR_PERIOD) + 1) =
        [23, 24] := by
      norm_num [RSI_PERIOD, ATR_PERIOD, exDf2, psC2]
      rfl
    rw [hr, ← signalFires_eq_claim, List.countP_cons, List.countP_cons, List.countP_nil,
      if_pos (exDf2_fires 23 (by omega) (by omega)),
      if_pos (exDf2_fires 24 (by omega) (by omega))]

/-- Witness for the amended C2 at a concrete input (the same 27-candle
series; the loop range is `range' 23 1`). -/
theorem c2_signal_count_amended_witness :
    (calc_reproducibility exDf2 0 gmpC2).signal_count =
      (List.range' (RSI_PERIOD + ATR_PERIOD)
        (exDf2.length - 60 / (gmpC2 0).ohlcv_aggregate - 1 -
          (RSI_PERIOD + ATR_PERIOD))).countP (claimSignalFires exDf2 (gmpC2 0)) :=
  c2_signal_count_amended exDf2 0 gmpC2 (by decide)

/-- The post-loop score equals the claim's composition: the code's
`adjusted_rate = 0` special case at `signal_count = 0` is absorbed by the
zero confidence factor, and for positive counts the expressions coincide. -/
theorem reproPost_score_eq_claim (n k : ℕ) :
    (reproPost n k).reproducibility_score = claimReproScore n k := by
  by_cases hn : n = 0
  · subst hn
    simp only [reproPost, claimReproScore]
    norm_num [qmin]
  · simp only [reproPost, claimReproScore, if_neg hn]

theorem claimReproScore_zero (k : ℕ) : claimReproScore 0 k = 0 := by
  norm_num [claimReproScore, qmin]

theorem claimReproScore_allwin (n : ℕ) (h10 : 10 ≤ n) : claimReproScore n n = 20 := by
  have hcast : (10 : ℚ) ≤ (n : ℚ) := by exact_mod_cast h10
  have hpos : (0 : ℚ) < (n : ℚ) + 5 := by positivity
  have hadj : (3 / 4 : ℚ) ≤ ((n : ℚ) + 5 * (1 / 2)) / ((n : ℚ) + 5) := by
    rw [le_div_iff hpos]
    nlinarith
  simp only [claimReproScore, if_pos hadj]
  have hconf : qmin ((n : ℚ) / 10) 1 = 1 := by
    rw [qmin]
    split
    · linarith
    · rfl
  rw [hconf, mul_one]

/-- C3: the reproducibility score is the claim's formula —
`adjusted_rate = (success + 5·0.5)/(signals + 5)`, the 0/linear/linear/20
piecewise raw score, times `min(signals/10, 1)` — so zero qualifying signals
give score 0, and an all-win record with at least 10 signals gives 20. -/
theorem c3_repro_score_formula (df : List Candle) (mc : ℚ) (gmp : ℚ → McParams) :
    (calc_reproducibility df mc gmp).reproducibility_score =
      claimReproScore (calc_reproducibility df mc gmp).signal_count
        (calc_reproducibility df mc gmp).success_count ∧
    ((calc_reproducibility df mc gmp).signal_count = 0 →
      (calc_reproducibility df mc gmp).reproducibility_score = 0) ∧
    ((calc_reproducibility df mc gmp).success_count =
        (calc_reproducibility df mc gmp).signal_count →
      10 ≤ (calc_reproducibility df mc gmp).signal_count →
      (calc_reproducibility df mc gmp).reproducibility_score = 20) := by
  have hform : (calc_reproducibility df mc gmp).reproducibility_score =
      claimReproScore (calc_reproducibility df mc gmp).signal_count
        (calc_reproducibility df mc gmp).success_count :=
    reproPost_score_eq_claim _ _
  refine ⟨hform, ?_, ?_⟩
  · intro h
    rw [hform, h, claimReproScore_zero]
  · intro hks h10
    rw [hform, hks, claimReproScore_allwin _ h10]

theorem exDf3_fires (i : ℕ) (h1 : 20 ≤ i) (h2 : i + 1 ≤ 36) :
    signalFires exDf3 psC3 i = true :=
  signalFires_replicate (wickCandle 0) psC3 36 i h1 h2
    (by norm_num [psC3]) (by norm_num [wickCandle]) (by norm_num [psC3])
    (by norm_num [wickCandle])

theorem exDf3_wins (i : ℕ) (h1 : 23 ≤ i) (h2 : i ≤ 33) :
    winAt exDf3 psC3 1 i = true := by
  have hf := exDf3_fires i (by omega) (by omega)
  have hatr : calc_atr_series exDf3 ATR_PERIOD i = 1 := by
    have h := atr_series_replicate (wickCandle 0) 36 i (by omega)
      (by norm_num [qmax, wickCandle])
    rw [show exDf3 = List.replicate 36 (wickCandle 0) from rfl]
    rw [h]
    norm_num [wickCandle]
  have hclose : closeAt exDf3 i = 100 := by
    have h := closeAt_replicate (wickCandle 0) 36 i (by omega)
    rw [show exDf3 = List.replicate 36 (wickCandle 0) from rfl, h]
    norm_num [wickCandle]
  have hfut : (exDf3.drop (i + 1)).take 1 = [wickCandle 0] := by
    rw [show exDf3 = List.replicate 36 (wickCandle 0) from rfl]
    rw [List.drop_replicate, List.take_replicate,
      show min 1 (36 - (i + 1)) = 1 from by omega]
    simp
  simp only [winAt, hf, Bool.true_and, decide_eq_true_eq, hatr, hclose, hfut]
  have hsl : (100 : ℚ) - 1 * psC3.atr_sl_mult = 99 := by norm_num [psC3]
  have htp : (100 : ℚ) + 1 * psC3.atr_tp_mult = 101 := by norm_num [psC3]
  rw [hsl, htp, scanOutcome]
  rw [if_neg (by norm_num [wickCandle]), if_pos (by norm_num [wickCandle])]

theorem exDf3_counts :
    (calc_reproducibility exDf3 0 gmpC3).signal_count = 11 ∧
    (calc_reproducibility exDf3 0 gmpC3).success_count = 11 := by
  have hfold := reproFold_counts exDf3 psC3 1 (List.range' 23 11) 0 0
  have hsc : (List.range' 23 11).countP (signalFires exDf3 psC3) = 11 := by
    have h : (List.range' 23 11).countP (signalFires exDf3 psC3) =
        (List.range' 23 11).length :=
      List.countP_eq_length.mpr (fun a ha => by
        have hm := List.mem_range'_1.mp ha
        exact exDf3_fires a (by omega) (by omega))
    rw [h, List.length_range']
  have hss : (List.range' 23 11).countP (winAt exDf3 psC3 1) = 11 := by
    have h : (List.range' 23 11).countP (winAt exDf3 psC3 1) =
        (List.range' 23 11).length :=
      List.countP_eq_length.mpr (fun a ha => by
        have hm := List.mem_range'_1.mp ha
        exact exDf3_wins a (by omega) (by omega))
    rw [h, List.length_range']
  constructor
  · have h1 := hfold.1
    rw [hsc] at h1
    simpa [calc_reproducibility, reproPost, gmpC3, psC3, exDf3,
      RSI_PERIOD, ATR_PERIOD] using h1
  · have h2 := hfold.2
    rw [hss] at h2
    simpa [calc_reproducibility, reproPost, gmpC3, psC3, exDf3,
      RSI_PERIOD, ATR_PERIOD] using h2

/-- Witness for C3 at concrete inputs: an empty series (no signals, score 0)
and the 36-candle all-win series (11 signals, all wins, score 20). -/
theorem c3_repro_score_formula_witness :
    (calc_reproducibility [] 0 gmpC2).reproducibility_score = 0 ∧
    (calc_reproducibility exDf3 0 gmpC3).reproducibility_score = 20 :=
  ⟨(c3_repro_score_formula [] 0 gmpC2).2.1 rfl,
   (c3_repro_score_formula exDf3 0 gmpC3).2.2
     (exDf3_counts.2.trans exDf3_counts.1.symm)
     (by rw [exDf3_counts.1]; norm_num)⟩

theorem hitStep_none_untouched (sl tp : ℚ) (s t : Bool) (c : Candle)
    (h1 : ¬(c.low ≤ sl)) (h2 : ¬(tp ≤ c.high)) :
    hitStep sl tp (none, s, t) c = (none, s, t) := by
  simp [hitStep, h1, h2]

theorem hitScan_foldl_untouched (sl tp : ℚ) : ∀ (pre : List Candle),
    (∀ c ∈ pre, ¬(c.low ≤ sl) ∧ ¬(tp ≤ c.high)) → ∀ (s t : Bool) (rest : List Candle),
    (pre ++ rest).foldl (hitStep sl tp) (none, s, t) =
      rest.foldl (hitStep sl tp) (none, s, t) := by
  intro pre
  induction pre with
  | nil =>
      intro _ s t rest
      rfl
  | cons c pr ih =>
      intro h s t rest
      rw [List.cons_append, List.foldl_cons,
        hitStep_none_untouched sl tp s t c (h c (by simp)).1 (h c (by simp)).2]
      exact ih (fun x hx => h x (by simp [hx])) s t rest

theorem hitScan_first_some (sl tp : ℚ) (x : String) : ∀ (l : List Candle) (s t : Bool),
    (l.foldl (hitStep sl tp) (some x, s, t)).1 = some x := by
  intro l
  induction l with
  | nil =>
      intro s t
      rfl
  | cons c cs ih =>
      intro s t
      rw [List.foldl_cons]
      exact ih _ _

theorem hitScan_both (sl tp : ℚ) (pre : List Candle) (c : Candle) (rest : List Candle)
    (h : ∀ x ∈ pre, ¬(x.low ≤ sl) ∧ ¬(tp ≤ x.high))
    (hsl : c.low ≤ sl) (htp : tp ≤ c.high) :
    (hitScan (pre ++ c :: rest) sl tp).1 = some sBOTH := by
  rw [hitScan, hitScan_foldl_untouched sl tp pre h false false (c :: rest), List.foldl_cons]
  have hstep : hitStep sl tp (none, false, false) c = (some sBOTH, true, true) := by
    simp [hitStep, hsl, htp]
  rw [hstep]
  exact hitScan_first_some sl tp sBOTH rest true true

theorem hitScan_no_touch (sl tp : ℚ) (w : List Candle)
    (h : ∀ x ∈ w, ¬(x.low ≤ sl) ∧ ¬(tp ≤ x.high)) :
    hitScan w sl tp = (none, false, false) := by
  have hu := hitScan_foldl_untouched sl tp w h false false []
  simpa [hitScan] using hu

theorem scanOutcome_both (sl tp : ℚ) : ∀ (pre : List Candle) (c : Candle)
    (rest : List Candle), (∀ x ∈ pre, ¬(x.low ≤ sl) ∧ ¬(tp ≤ x.high)) →
    c.low ≤ sl → tp ≤ c.high → scanOutcome (pre ++ c :: rest) sl tp = sBoth := by
  intro pre
  induction pre with
  | nil =>
      intro c rest _ hsl htp
      rw [List.nil_append]
      simp only [scanOutcome]
      rw [if_pos ⟨hsl, htp⟩]
  | cons d pr ih =>
      intro c rest h hsl htp
      have hd1 : ¬(d.low ≤ sl) := (h d (by simp)).1
      have hd2 : ¬(tp ≤ d.high) := (h d (by simp)).2
      rw [List.cons_append]
      simp only [scanOutcome]
      rw [if_neg (fun hc => hd1 hc.1), if_neg hd2, if_neg hd1]
      exact ih c rest (fun x hx => h x (by simp [hx])) hsl htp

/-- C8 amended: in both scans a first touching candle that touches stop and
target together classifies as BOTH (and BOTH is distinct from WIN/LOSS); if
nothing in the 60-minute window touches, the tracker classifies from the
last price at or before minute 60 — above entry WIN+, otherwise LOSS-,
UNKNOWN when no such price exists — and pnl% is `(p60−entry)/entry×100`
computed from that minute-60 price (not a touch price) and rounded to two
decimals by Python's `round(x, 2)`. -/
theorem c8_outcome_classification_amended (df : List Candle) (su : ℕ)
    (entry sl tp : ℚ) (nowStr : String) :
    (∀ pre c rest, windowOf df su = pre ++ c :: rest →
      (∀ x ∈ pre, ¬(x.low ≤ sl) ∧ ¬(tp ≤ x.high)) → c.low ≤ sl → tp ≤ c.high →
      (fetchOutcomeCore df su entry sl tp nowStr).map (fun d => d.outcome) =
        some sBOTH) ∧
    (∀ pre c rest, (∀ x ∈ pre, ¬(x.low ≤ sl) ∧ ¬(tp ≤ x.high)) →
      c.low ≤ sl → tp ≤ c.high →
      scanOutcome (pre ++ c :: rest) sl tp = sBoth) ∧
    (sBOTH ≠ sWIN ∧ sBOTH ≠ sLOSS ∧ sBoth ≠ sWin ∧ sBoth ≠ sLoss) ∧
    ((∀ x ∈ windowOf df su, ¬(x.low ≤ sl) ∧ ¬(tp ≤ x.high)) → windowOf df su ≠ [] →
      (∀ p, priceAt df (su + 3600) = some p →
        (entry < p →
          (fetchOutcomeCore df su entry sl tp nowStr).map (fun d => d.outcome) =
            some sWINplus) ∧
        (¬(entry < p) →
          (fetchOutcomeCore df su entry sl tp nowStr).map (fun d => d.outcome) =
            some sLOSSminus) ∧
        (fetchOutcomeCore df su entry sl tp nowStr).map (fun d => d.pnl_pct) =
          some (some (pyRound2 ((p - entry) / entry * 100)))) ∧
      (priceAt df (su + 3600) = none →
        (fetchOutcomeCore df su entry sl tp nowStr).map (fun d => d.outcome) =
          some sUNKNOWN)) := by
  refine ⟨?_, ?_, by refine ⟨by decide, by decide, by decide, by decide⟩, ?_⟩
  · intro pre c rest hw hpre hsl htp
    have hne : windowOf df su ≠ [] := by
      rw [hw]
      simp
    have hfst : (hitScan (windowOf df su) sl tp).1 = some sBOTH := by
      rw [hw]
      exact hitScan_both sl tp pre c rest hpre hsl htp
    simp only [fetchOutcomeCore, if_neg hne, Option.map_some', hfst]
  · intro pre c rest hpre hsl htp
    exact scanOutcome_both sl tp pre c rest hpre hsl htp
  · intro hno hne
    have hscan : hitScan (windowOf df su) sl tp = (none, false, false) :=
      hitScan_no_touch sl tp (windowOf df su) hno
    constructor
    · intro p hp
      refine ⟨?_, ?_, ?_⟩
      · intro hlt
        simp only [fetchOutcomeCore, if_neg hne, Option.map_some', hscan, hp, if_pos hlt]
      · intro hge
        simp only [fetchOutcomeCore, if_neg hne, Option.map_some', hscan, hp, if_neg hge]
      · simp only [fetchOutcomeCore, if_neg hne, Option.map_some', hscan, hp]
    · intro hp
      simp only [fetchOutcomeCore, if_neg hne, Option.map_some', hscan, hp]

/-- Counterexample to C8's pnl equation as stated: with entry 3 and a
minute-60 price of 4 the code stores `round((4−3)/3×100, 2) = 33.33`, not
the exact `(4−3)/3×100 = 100/3`. -/
theorem c8_pnl_counterexample :
    (fetchOutcomeCore exDf8 0 3 1 100 nowStr0).map (fun d => d.pnl_pct) =
      some (some (3333 / 100)) ∧
    (3333 / 100 : ℚ) ≠ (4 - 3) / 3 * 100 := by
  have hc : exDf8 = [{ ts := 0, opn := 3, high := 4, low := 2, close := 4, volume := 1 }] :=
    rfl
  have hw : windowOf exDf8 0 = exDf8 := by
    rw [hc]
    norm_num [windowOf]
  have hne : windowOf exDf8 0 ≠ [] := by
    rw [hw, hc]
    simp
  have hno : ∀ x ∈ windowOf exDf8 0, ¬(x.low ≤ (1 : ℚ)) ∧ ¬((100 : ℚ) ≤ x.high) := by
    rw [hw, hc]
    intro x hx
    rw [List.mem_singleton] at hx
    subst hx
    constructor <;> norm_num
  have hscan : hitScan (windowOf exDf8 0) 1 100 = (none, false, false) :=
    hitScan_no_touch 1 100 _ hno
  have hp60 : priceAt exDf8 3600 = some 4 := by
    rw [hc]
    norm_num [priceAt]
  have hfloor : ⌊(10000 / 3 : ℚ)⌋ = 3333 := by
    rw [Int.floor_eq_iff]
    constructor <;> norm_num
  have hpr : pyRound (10000 / 3 : ℚ) = 3333 := by
    simp only [pyRound, hfloor]
    norm_num
  have hpy : pyRound2 (((4 : ℚ) - 3) / 3 * 100) = 3333 / 100 := by
    have harg : (((4 : ℚ) - 3) / 3 * 100) * 100 = 10000 / 3 := by norm_num
    simp only [pyRound2, harg, hpr]
    norm_num
  constructor
  · simp only [fetchOutcomeCore, if_neg hne, Option.map_some', hp60, hscan]
    rw [hpy]
  · norm_num

/-- Witness for the amended C8 at concrete inputs: a window whose only candle
touches stop 1 and target 3 at once (both scans), and a quiet window whose
minute-60 price 2.1 sits above entry 2 (WIN+ with rounded pnl). -/
theorem c8_outcome_classification_amended_witness :
    (fetchOutcomeCore [candleBoth] 0 2 1 3 nowStr0).map (fun d => d.outcome) =
      some sBOTH ∧
    scanOutcome [candleBoth] 1 3 = sBoth ∧
    (fetchOutcomeCore [candleQuiet] 0 2 1 3 nowStr0).map (fun d => d.outcome) =
      some sWINplus ∧
    (fetchOutcomeCore [candleQuiet] 0 2 1 3 nowStr0).map (fun d => d.pnl_pct) =
      some (some (pyRound2 ((21 / 10 - 2) / 2 * 100))) := by
  have hwB : windowOf [candleBoth] 0 = [] ++ candleBoth :: [] := by
    norm_num [windowOf, candleBoth]
  have hwQ : windowOf [candleQuiet] 0 = [candleQuiet] := by
    norm_num [windowOf, candleQuiet]
  have hnoQ : ∀ x ∈ windowOf [candleQuiet] 0, ¬(x.low ≤ (1 : ℚ)) ∧ ¬((3 : ℚ) ≤ x.high) := by
    rw [hwQ]
    intro x hx
    rw [List.mem_singleton] at hx
    subst hx
    constructor <;> norm_num [candleQuiet]
  have hneQ : windowOf [candleQuiet] 0 ≠ [] := by
    rw [hwQ]
    simp
  have hpQ : priceAt [candleQuiet] 3600 = some (21 / 10) := by
    norm_num [priceAt, candleQuiet]
  refine ⟨?_, ?_, ?_, ?_⟩
  · exact (c8_outcome_classification_amended [candleBoth] 0 2 1 3 nowStr0).1
      [] candleBoth [] hwB (by simp) (by norm_num [candleBoth]) (by norm_num [candleBoth])
  · exact ((c8_outcome_classification_amended [candleBoth] 0 2 1 3 nowStr0).2.1
      [] candleBoth [] (by simp) (by norm_num [candleBoth]) (by norm_num [candleBoth]))
  · exact ((((c8_outcome_classification_amended [candleQuiet] 0 2 1 3 nowStr0).2.2.2
      hnoQ hneQ).1 (21 / 10) hpQ).1 (by norm_num))
  · exact (((c8_outcome_classification_amended [candleQuiet] 0 2 1 3 nowStr0).2.2.2
      hnoQ hneQ).1 (21 / 10) hpQ).2.2

end MemeScanner
